import Mathlib

/-!
# Verification of the account / follow-graph backend (`org/user_api.go`)

Shallow embedding of the user-facing HTTP handlers in `src/org/user_api.go`
and of the collaborators they use.  The handlers themselves
(`createUserHandler`, `loginUserHandler`, `updateUserHandler`,
`profileHandler`, `followUserHandler`, `unfollowUserHandler`,
`comparePasswords`, `hashPassword`, `setUserToken`) are translated directly
from the Go source.  Collaborators that live outside the given source file
(the bcrypt library, the postgres layer, `httputil.UnmarshalJSON`,
`CreateUserToken`, `SelectUserByUsername`, `NewProfile`, the auth
middleware) are modelled from the specification, each marked with a
`Modelled from the spec:` doc comment.

Time is measured in seconds (Go's `24*time.Hour` becomes `24*3600`).
The request-scoped database is passed explicitly; fallible operations
return `Except Err`.
-/

namespace Org

/-- The error values the handlers can surface.  `errUserNotFound` is the
package-level `errors.New("Not registered email or invalid password")`;
`pgNoRows` and `pgUniqueViolation` are the raw storage-layer errors
(`pg.ErrNoRows`, a unique-constraint violation); `hashingError` is a bcrypt
generation failure; `jsonFieldUserRequired` is the handlers' own
`errors.New` for a missing "user" field; `bodyTooLarge` is the error from
reading a request body past the size limit.  `alreadyFollowing` is the
domain error named by the spec's FollowGraph component; the source never
constructs it. -/
inductive Err where
  | errUserNotFound
  | pgNoRows
  | pgUniqueViolation
  | hashingError
  | jsonFieldUserRequired
  | bodyTooLarge
  | alreadyFollowing
  deriving Repr, DecidableEq

/-- Modelled from the spec: a bcrypt digest is an opaque string; a
well-formed digest is exactly one produced by the hashing algorithm and
embeds a per-call random salt, while anything else is malformed.  The
one-way function is modelled injectively: a well-formed digest determines
the salt and the hashed password. -/
inductive Digest where
  | bcrypt (salt : Nat) (pass : String)
  | malformed (raw : String)
  deriving Repr, DecidableEq

/-- Modelled from the spec: error values of the bcrypt library, separate
from the handlers' `Err`: a non-matching password and a malformed digest
are distinct bcrypt errors. -/
inductive BcryptErr where
  | mismatchedHashAndPassword
  | invalidHash
  | passwordTooLong
  deriving Repr, DecidableEq

/-- Modelled from the spec: `bcrypt.GenerateFromPassword` — a one-way
transform with a per-call random salt baked into the output (the salt is
passed explicitly here), failing when the input exceeds the algorithm's
72-byte limit. -/
def bcryptGenerateFromPassword (salt : Nat) (pass : String) :
    Except BcryptErr Digest :=
  if pass.utf8ByteSize > 72 then .error .passwordTooLong
  else .ok (.bcrypt salt pass)

/-- Modelled from the spec: `bcrypt.CompareHashAndPassword` — succeeds
exactly when the digest is well-formed and hashes the given password;
a well-formed digest of a different password gives a mismatch error and a
malformed digest gives a format error. -/
def bcryptCompareHashAndPassword (hash : Digest) (pass : String) :
    Except BcryptErr Unit :=
  match hash with
  | .bcrypt _ p => if p = pass then .ok () else .error .mismatchedHashAndPassword
  | .malformed _ => .error .invalidHash

/-- Source function `hashPassword`: wraps `bcrypt.GenerateFromPassword`,
propagating its error. -/
def hashPassword (salt : Nat) (pass : String) : Except Err Digest :=
  match bcryptGenerateFromPassword salt pass with
  | .error _ => .error .hashingError
  | .ok d => .ok d

/-- Source function `comparePasswords`: any bcrypt failure — mismatch or
malformed digest alike — is collapsed into the single `errUserNotFound`
error. -/
def comparePasswords (hash : Digest) (pass : String) : Except Err Unit :=
  match bcryptCompareHashAndPassword hash pass with
  | .error _ => .error .errUserNotFound
  | .ok () => .ok ()

/-- Modelled from the spec: a token embeds the user id and an absolute
expiry instant (`now + ttl`). -/
structure Token where
  userID : Nat
  expiresAt : Nat
  deriving Repr, DecidableEq

/-- Modelled from the spec: `CreateUserToken(userID, ttl)` issues a signed
token embedding `userID` and `now + ttl` (time in seconds). -/
def CreateUserToken (userID ttl now : Nat) : Token :=
  { userID := userID, expiresAt := now + ttl }

/-- The in-memory `User` struct of the handlers: persisted columns plus the
transient `password` (plaintext from the request, never a column), `token`
and the viewer-relative `following` flag. -/
structure User where
  id : Nat
  email : String
  username : String
  password : String
  passwordHash : Option Digest
  bio : String
  image : String
  token : Option Token
  following : Bool
  deriving Repr, DecidableEq

/-- Source function `setUserToken`: mints a token for the user's id with
the fixed 24-hour TTL (`24*time.Hour`, i.e. `24*3600` seconds) and stores
it on the record. -/
def setUserToken (now : Nat) (user : User) : User :=
  { user with token := some (CreateUserToken user.id (24 * 3600) now) }

/-- A persisted user row: the columns of the user table.  There is no
plaintext-password column — the plaintext is never stored. -/
structure StoredUser where
  id : Nat
  email : String
  username : String
  passwordHash : Digest
  bio : String
  image : String
  deriving Repr, DecidableEq

/-- Loading a stored row into the in-memory struct: transient fields take
their zero values (empty password, no token, following false). -/
def userFromStored (su : StoredUser) : User :=
  { id := su.id, email := su.email, username := su.username, password := "",
    passwordHash := some su.passwordHash, bio := su.bio, image := su.image,
    token := none, following := false }

/-- Modelled from the spec: the persisted state — a user table with unique
indexes on `email` and `username`, and a follow-edge table with a composite
unique index on `(followerID, followedID)` (stored as `(userID,
followedUserID)` pairs). -/
structure DB where
  users : List StoredUser
  follows : List (Nat × Nat)
  nextID : Nat
  deriving Repr, DecidableEq

/-- Modelled from the spec: `SELECT ... WHERE email = ?` — returns the row
or the raw `pg.ErrNoRows` storage error. -/
def selectByEmail (db : DB) (email : String) : Except Err StoredUser :=
  match db.users.find? (fun u => u.email = email) with
  | some u => .ok u
  | none => .error .pgNoRows

/-- Modelled from the spec: `SelectUserByUsername` (defined outside the
given source file) — `UserStore.getByUsername`, returning the row or the
raw `pg.ErrNoRows` storage error. -/
def SelectUserByUsername (db : DB) (username : String) : Except Err StoredUser :=
  match db.users.find? (fun u => u.username = username) with
  | some u => .ok u
  | none => .error .pgNoRows

/-- Modelled from the spec: `INSERT` of a user row — fails with the raw
unique-constraint violation if the email or username already exists,
otherwise persists the row with the next assigned id. -/
def insertUser (db : DB) (email username : String) (ph : Digest)
    (bio image : String) : Except Err (DB × StoredUser) :=
  if db.users.any (fun v => v.email = email || v.username = username) then
    .error .pgUniqueViolation
  else
    let su : StoredUser :=
      { id := db.nextID, email := email, username := username,
        passwordHash := ph, bio := bio, image := image }
    .ok ({ db with users := db.users ++ [su], nextID := db.nextID + 1 }, su)

/-- Modelled from the spec: the `UPDATE ... SET email, username,
password_hash, image, bio WHERE id = ? RETURNING *` issued by the update
handler — fails with the raw unique-constraint violation if the new email
or username collides with a different record, with the raw no-rows error
if the id does not exist, and otherwise overwrites exactly the row with
the given id and returns it. -/
def updateUserByID (db : DB) (uid : Nat) (email username : String)
    (ph : Digest) (image bio : String) : Except Err (DB × StoredUser) :=
  if db.users.any (fun v => v.id ≠ uid && (v.email = email || v.username = username)) then
    .error .pgUniqueViolation
  else
    match db.users.find? (fun v => v.id = uid) with
    | none => .error .pgNoRows
    | some old =>
      let nu : StoredUser :=
        { old with email := email, username := username, passwordHash := ph,
                   image := image, bio := bio }
      .ok ({ db with
              users := db.users.map (fun v => if v.id = uid then nu else v) }, nu)

/-- Modelled from the spec: `INSERT` of a follow edge — fails with the raw
unique-constraint violation of the composite index if the ordered pair
already exists. -/
def insertFollow (db : DB) (userID followedUserID : Nat) : Except Err DB :=
  if (userID, followedUserID) ∈ db.follows then .error .pgUniqueViolation
  else .ok { db with follows := db.follows ++ [(userID, followedUserID)] }

/-- Modelled from the spec: the unconditional `DELETE ... WHERE user_id = ?
AND followed_user_id = ?` — removes the edge if present and succeeds
regardless of whether a row was affected. -/
def deleteFollow (db : DB) (userID followedUserID : Nat) : DB :=
  { db with
    follows := db.follows.filter
      (fun e => !(e.1 = userID && e.2 = followedUserID)) }

/-- The decoded request body: a byte size and the optional "user" JSON
field (all handlers read the same shape; login ignores all fields but
email and password). -/
structure UserIn where
  email : String
  username : String
  password : String
  bio : String
  image : String
  deriving Repr, DecidableEq

/-- A request body: its size in bytes and its decoded content. -/
structure Body where
  size : Nat
  user : Option UserIn
  deriving Repr, DecidableEq

/-- The constant `kb = 10` from the source. -/
def kb : Nat := 10

/-- Modelled from the spec: `httputil.UnmarshalJSON(w, req, &in, limit)` —
reading a body larger than `limit` bytes fails before any decoded value is
produced; otherwise it yields the decoded "user" field. -/
def unmarshalJSON (body : Body) (limit : Nat) : Except Err (Option UserIn) :=
  if body.size > limit then .error .bodyTooLarge
  else .ok body.user

/-- Source function `createUserHandler`: decode the body (limit `10<<kb`),
require the "user" field, hash the password, insert the row, mint the
token, clear the plaintext password, and return the user. -/
def createUserHandler (db : DB) (salt now : Nat) (body : Body) :
    Except Err (DB × User) := do
  match ← unmarshalJSON body (10 <<< kb) with
  | none => .error .jsonFieldUserRequired
  | some inUser => do
    let ph ← hashPassword salt inUser.password
    let (db', su) ← insertUser db inUser.email inUser.username ph
      inUser.bio inUser.image
    let user : User :=
      { id := su.id, email := inUser.email, username := inUser.username,
        password := inUser.password, passwordHash := some ph,
        bio := inUser.bio, image := inUser.image, token := none,
        following := false }
    let user := setUserToken now user
    .ok (db', { user with password := "" })

/-- Source function `loginUserHandler`: decode the body (limit `10<<kb`),
require the "user" field, select by email (a miss propagates the raw
storage error), compare passwords (any failure becomes `errUserNotFound`),
mint the token, and return the loaded user. -/
def loginUserHandler (db : DB) (now : Nat) (body : Body) :
    Except Err (DB × User) := do
  match ← unmarshalJSON body (10 <<< kb) with
  | none => .error .jsonFieldUserRequired
  | some inUser => do
    let su ← selectByEmail db inUser.email
    let _ ← comparePasswords su.passwordHash inUser.password
    let user := setUserToken now (userFromStored su)
    .ok (db, user)

/-- Source function `updateUserHandler`: decode the body (limit `10<<kb`),
require the "user" field, hash the supplied password unconditionally
(the zero-value empty string when none was supplied), issue the update
scoped to `WHERE id = authUser.ID` with `RETURNING *` scanned back into
`authUser`, and return `authUser`.  (The source clears the plaintext on
the decoded input struct, not on the returned one.) -/
def updateUserHandler (db : DB) (authUser : User) (salt : Nat) (body : Body) :
    Except Err (DB × User) := do
  match ← unmarshalJSON body (10 <<< kb) with
  | none => .error .jsonFieldUserRequired
  | some inUser => do
    let ph ← hashPassword salt inUser.password
    let (db', su) ← updateUserByID db authUser.id inUser.email inUser.username
      ph inUser.image inUser.bio
    let out : User :=
      { authUser with email := su.email, username := su.username,
                      passwordHash := some su.passwordHash, bio := su.bio,
                      image := su.image }
    .ok (db', out)

/-- The public profile view (`username`, `bio`, `image`, `following`). -/
structure Profile where
  username : String
  bio : String
  image : String
  following : Bool
  deriving Repr, DecidableEq

/-- Modelled from the spec: `NewProfile` (defined outside the given source
file) projects a user record to its public profile — password hash and
email are never included. -/
def NewProfile (u : User) : Profile :=
  { username := u.username, bio := u.bio, image := u.image,
    following := u.following }

/-- Source function `profileHandler`: look up the target by username; the
`following` column is a correlated `EXISTS` subquery over the follow table
for the context viewer (`fu.user_id = viewer AND fu.followed_user_id =
u.id`) when a viewer is present, and the constant `false` otherwise. -/
def profileHandler (db : DB) (viewer : Option User) (username : String) :
    Except Err Profile := do
  let su ← SelectUserByUsername db username
  let fol : Bool :=
    match viewer with
    | some authUser => decide ((authUser.id, su.id) ∈ db.follows)
    | none => false
  .ok (NewProfile { userFromStored su with following := fol })

/-- Source function `followUserHandler`: look up the target by username,
insert the edge `(authUser.id, target.id)` — an insert error (such as the
unique-constraint violation when the edge exists) is returned as-is — and
return the target's profile with `following = true`. -/
def followUserHandler (db : DB) (authUser : User) (username : String) :
    Except Err (DB × Profile) := do
  let su ← SelectUserByUsername db username
  let db' ← insertFollow db authUser.id su.id
  .ok (db', NewProfile { userFromStored su with following := true })

/-- Source function `unfollowUserHandler`: look up the target by username,
issue the delete of the edge unconditionally (success regardless of
whether a row was affected), and return the target's profile with
`following = false`. -/
def unfollowUserHandler (db : DB) (authUser : User) (username : String) :
    Except Err (DB × Profile) := do
  let su ← SelectUserByUsername db username
  let db' := deleteFollow db authUser.id su.id
  .ok (db', NewProfile { userFromStored su with following := false })

/-! ## Concrete demonstration data

A small database used to instantiate the theorems: two registered users
and one follow edge, alice (id 1) following bob (id 2). -/

/-- The number of copies of the edge `(a, b)` in the follow table. -/
def edgeCount (db : DB) (a b : Nat) : Nat :=
  db.follows.countP (fun e => decide (e = (a, b)))

/-- A registered user row: alice, password "secret". -/
def aliceRow : StoredUser :=
  { id := 1, email := "alice@x.com", username := "alice",
    passwordHash := .bcrypt 7 "secret", bio := "b", image := "i" }

/-- A registered user row: bob. -/
def bobRow : StoredUser :=
  { id := 2, email := "bob@x.com", username := "bob",
    passwordHash := .bcrypt 3 "hunter2", bio := "", image := "" }

/-- The demonstration database: alice and bob, alice following bob. -/
def demoDB : DB :=
  { users := [aliceRow, bobRow], follows := [(1, 2)], nextID := 3 }

/-- A small well-formed request body with the given "user" fields. -/
def mkBody (email username pass bio image : String) : Body :=
  { size := 50,
    user := some { email := email, username := username, password := pass,
                   bio := bio, image := image } }

/-- The database after alice's profile update that supplies no password:
her stored hash has become the hash of the empty string. -/
def demoDBUpdated : DB :=
  { users := [{ aliceRow with
                passwordHash := .bcrypt 9 "",
                bio := "new bio" }, bobRow],
    follows := [(1, 2)], nextID := 3 }

/-- The user record returned by that update. -/
def demoUpdatedOut : User :=
  { userFromStored aliceRow with
    passwordHash := some (.bcrypt 9 ""),
    bio := "new bio" }

/-- The row inserted by registering carol against `demoDB`. -/
def carolRow : StoredUser :=
  { id := 3, email := "carol@x.com", username := "carol",
    passwordHash := .bcrypt 5 "pw", bio := "", image := "" }

/-- The database after registering carol against `demoDB`. -/
def c8DBAfter : DB :=
  { users := [aliceRow, bobRow, carolRow], follows := [(1, 2)], nextID := 4 }

/-- The user record returned by registering carol at time 100: its token
expires at 100 + 86400 = 86500. -/
def c8Out : User :=
  { id := 3, email := "carol@x.com", username := "carol", password := "",
    passwordHash := some (.bcrypt 5 "pw"), bio := "", image := "",
    token := some { userID := 3, expiresAt := 86500 }, following := false }

end Org

deriving instance DecidableEq for Except

namespace Org

/-! ## Generic lemmas about the embedding -/

theorem except_ok_bind {ε α β : Type} (a : α) (f : α → Except ε β) :
    (Except.ok a >>= f) = f a := rfl

theorem except_error_bind {ε α β : Type} (e : ε) (f : α → Except ε β) :
    ((Except.error e : Except ε α) >>= f) = .error e := rfl

/-- Inversion of a successful registration: the decoded input, the digest
and the inserted row, and the shape of the returned user. -/
theorem createUserHandler_ok_inv {db : DB} {salt now : Nat} {body : Body}
    {db' : DB} {out : User}
    (h : createUserHandler db salt now body = .ok (db', out)) :
    ∃ inUser ph su,
      unmarshalJSON body (10 <<< kb) = .ok (some inUser) ∧
      hashPassword salt inUser.password = .ok ph ∧
      insertUser db inUser.email inUser.username ph inUser.bio inUser.image
        = .ok (db', su) ∧
      out = { id := su.id, email := inUser.email, username := inUser.username,
              password := "", passwordHash := some ph, bio := inUser.bio,
              image := inUser.image,
              token := some (CreateUserToken su.id (24 * 3600) now),
              following := false } := by
  simp only [createUserHandler] at h
  cases hu : unmarshalJSON body (10 <<< kb) with
  | error e => rw [hu, except_error_bind] at h; exact Except.noConfusion h
  | ok ou =>
    rw [hu, except_ok_bind] at h
    cases ou with
    | none => exact Except.noConfusion h
    | some inUser =>
      dsimp only at h
      cases hp : hashPassword salt inUser.password with
      | error e => rw [hp, except_error_bind] at h; exact Except.noConfusion h
      | ok ph =>
        rw [hp, except_ok_bind] at h
        cases hi : insertUser db inUser.email inUser.username ph inUser.bio
            inUser.image with
        | error e => rw [hi, except_error_bind] at h; exact Except.noConfusion h
        | ok dsu =>
          rw [hi, except_ok_bind] at h
          simp only [Except.ok.injEq, Prod.mk.injEq] at h
          obtain ⟨hdb, hout⟩ := h
          subst hdb
          refine ⟨inUser, ph, dsu.2, rfl, hp, hi, ?_⟩
          rw [← hout]
          simp [setUserToken, CreateUserToken]

/-- Inversion of a successful login: the decoded input, the row found by
email, the password check, and the shape of the returned user. -/
theorem loginUserHandler_ok_inv {db : DB} {now : Nat} {body : Body}
    {db' : DB} {out : User}
    (h : loginUserHandler db now body = .ok (db', out)) :
    ∃ inUser su,
      unmarshalJSON body (10 <<< kb) = .ok (some inUser) ∧
      selectByEmail db inUser.email = .ok su ∧
      comparePasswords su.passwordHash inUser.password = .ok () ∧
      db' = db ∧
      out = setUserToken now (userFromStored su) := by
  simp only [loginUserHandler] at h
  cases hu : unmarshalJSON body (10 <<< kb) with
  | error e => rw [hu, except_error_bind] at h; exact Except.noConfusion h
  | ok ou =>
    rw [hu, except_ok_bind] at h
    cases ou with
    | none => exact Except.noConfusion h
    | some inUser =>
      dsimp only at h
      cases hs : selectByEmail db inUser.email with
      | error e => rw [hs, except_error_bind] at h; exact Except.noConfusion h
      | ok su =>
        rw [hs, except_ok_bind] at h
        cases hc : comparePasswords su.passwordHash inUser.password with
        | error e => rw [hc, except_error_bind] at h; exact Except.noConfusion h
        | ok u =>
          rw [hc, except_ok_bind] at h
          simp only [Except.ok.injEq, Prod.mk.injEq] at h
          obtain ⟨hdb, hout⟩ := h
          exact ⟨inUser, su, rfl, hs, hc, hdb.symm, hout.symm⟩

/-- Inversion of a successful profile update: the decoded input, the digest,
the updated row, and the shape of the returned user. -/
theorem updateUserHandler_ok_inv {db : DB} {authUser : User} {salt : Nat}
    {body : Body} {db' : DB} {out : User}
    (h : updateUserHandler db authUser salt body = .ok (db', out)) :
    ∃ inUser ph su,
      unmarshalJSON body (10 <<< kb) = .ok (some inUser) ∧
      hashPassword salt inUser.password = .ok ph ∧
      updateUserByID db authUser.id inUser.email inUser.username ph
        inUser.image inUser.bio = .ok (db', su) ∧
      out = { authUser with email := su.email, username := su.username,
                            passwordHash := some su.passwordHash,
                            bio := su.bio, image := su.image } := by
  simp only [updateUserHandler] at h
  cases hu : unmarshalJSON body (10 <<< kb) with
  | error e => rw [hu, except_error_bind] at h; exact Except.noConfusion h
  | ok ou =>
    rw [hu, except_ok_bind] at h
    cases ou with
    | none => exact Except.noConfusion h
    | some inUser =>
      dsimp only at h
      cases hp : hashPassword salt inUser.password with
      | error e => rw [hp, except_error_bind] at h; exact Except.noConfusion h
      | ok ph =>
        rw [hp, except_ok_bind] at h
        cases hup : updateUserByID db authUser.id inUser.email inUser.username
            ph inUser.image inUser.bio with
        | error e => rw [hup, except_error_bind] at h; exact Except.noConfusion h
        | ok dsu =>
          rw [hup, except_ok_bind] at h
          simp only [Except.ok.injEq, Prod.mk.injEq] at h
          obtain ⟨hdb, hout⟩ := h
          subst hdb
          exact ⟨inUser, ph, dsu.2, rfl, hp, hup, hout.symm⟩

/-- Inversion of a successful row update: the new row carries the target id
and the table is the pointwise rewrite of the old table at that id. -/
theorem updateUserByID_ok_inv {db : DB} {uid : Nat} {email username : String}
    {ph : Digest} {image bio : String} {db' : DB} {nu : StoredUser}
    (h : updateUserByID db uid email username ph image bio = .ok (db', nu)) :
    nu.id = uid ∧
    db'.users = db.users.map (fun v => if v.id = uid then nu else v) ∧
    db'.follows = db.follows := by
  simp only [updateUserByID] at h
  split at h
  · exact Except.noConfusion h
  · cases hf : db.users.find? (fun v => v.id = uid) with
    | none => rw [hf] at h; exact Except.noConfusion h
    | some old =>
      rw [hf] at h
      simp only [Except.ok.injEq, Prod.mk.injEq] at h
      obtain ⟨hdb, hnu⟩ := h
      have hid : old.id = uid := by
        have := List.find?_some hf
        simpa using this
      subst hdb hnu
      exact ⟨hid, rfl, rfl⟩

/-- Lookup by id (`find?`) is unchanged by a pointwise rewrite at a different id,
provided the replacement keeps that id. -/
theorem find_map_ne (l : List StoredUser) (uid y : Nat) (nu : StoredUser)
    (hnu : nu.id = uid) (hy : y ≠ uid) :
    (l.map (fun v => if v.id = uid then nu else v)).find? (fun u => u.id = y)
      = l.find? (fun u => u.id = y) := by
  induction l with
  | nil => rfl
  | cons a t ih =>
    by_cases ha : a.id = uid
    · simp only [List.map_cons, List.find?_cons, if_pos ha]
      have h1 : (decide (nu.id = y)) = false := by
        simp [hnu, (Ne.symm hy)]
      have h2 : (decide (a.id = y)) = false := by
        simp [ha, (Ne.symm hy)]
      rw [h1, h2, ih]
    · simp only [List.map_cons, List.find?_cons, if_neg ha]
      cases hd : (decide (a.id = y)) with
      | true => rfl
      | false => rw [ih]

/-- Deleting an edge removes it: the pair is never present afterwards. -/
theorem deleteFollow_not_mem (db : DB) (a b : Nat) :
    (a, b) ∉ (deleteFollow db a b).follows := by
  simp [deleteFollow, List.mem_filter]

/-- Deleting an edge twice is the same as deleting it once. -/
theorem deleteFollow_idem (db : DB) (a b : Nat) :
    deleteFollow (deleteFollow db a b) a b = deleteFollow db a b := by
  simp [deleteFollow, List.filter_filter]

/-! ## The claims -/

/-- C1.  The claim says a login with an unregistered email and a login with
a wrong password for a registered email both return the same
undifferentiated AuthenticationFailed error.  The code does not: a miss on
the email lookup propagates the raw storage no-rows error, while only the
password mismatch returns `errUserNotFound` — even though that error's own
message, "Not registered email or invalid password", documents that it was
meant to cover both cases.  At the concrete inputs below the two failures
are distinguishable. -/
theorem C1_login_failures_distinguishable :
    loginUserHandler demoDB 0 (mkBody "carol@x.com" "" "secret" "" "")
      = .error .pgNoRows ∧
    loginUserHandler demoDB 0 (mkBody "alice@x.com" "" "wrong" "" "")
      = .error .errUserNotFound ∧
    Err.pgNoRows ≠ Err.errUserNotFound :=
  ⟨rfl, rfl, by decide⟩

/-- C2.  The claim says the stored password hash is replaced only when a
new password is supplied and is unchanged otherwise.  The code hashes the
decoded password field unconditionally — the zero-value empty string when
the request supplies none — and always writes the result: alice updates
only her bio, yet her stored digest changes from the hash of "secret" to a
hash of "", locking out her old password. -/
theorem C2_update_without_password_overwrites_hash :
    updateUserHandler demoDB (userFromStored aliceRow) 9
        (mkBody "alice@x.com" "alice" "" "new bio" "i")
      = .ok (demoDBUpdated, demoUpdatedOut) ∧
    Digest.bcrypt 9 "" ≠ aliceRow.passwordHash :=
  ⟨rfl, by decide⟩

/-- C3 counterexample.  The claim says a second `follow(A,B)` fails with
the domain error `AlreadyFollowing` and not a raw storage error; in fact
with the edge (alice, bob) already present, the handler returns the raw
unique-constraint violation of the follow table, which is not the
`alreadyFollowing` error. -/
theorem C3_second_follow_not_domain_error :
    followUserHandler demoDB (userFromStored aliceRow) "bob"
      = .error .pgUniqueViolation ∧
    (Except.error Err.pgUniqueViolation : Except Err (DB × Profile))
      ≠ .error .alreadyFollowing :=
  ⟨rfl, by decide⟩

/-- C3 amended.  When the edge `(A, B)` already exists, a second
`follow(A,B)` fails with the storage layer's unique-constraint violation
(untranslated into any domain error), no state is produced, and under the
composite unique index (no duplicate pairs) the edge count for the ordered
pair is exactly 1. -/
theorem C3_second_follow_fails_with_storage_unique_violation
    (db : DB) (authUser : User) (username : String) (su : StoredUser)
    (hsel : SelectUserByUsername db username = .ok su)
    (hmem : (authUser.id, su.id) ∈ db.follows)
    (hnodup : db.follows.Nodup) :
    followUserHandler db authUser username = .error .pgUniqueViolation ∧
    edgeCount db authUser.id su.id = 1 := by
  constructor
  · simp only [followUserHandler]
    rw [hsel, except_ok_bind]
    simp [insertFollow, hmem, except_error_bind]
  · exact List.count_eq_one_of_mem hnodup hmem

/-- Witness for C3: alice already follows bob in the demonstration
database, so following again fails with the unique-constraint violation
and the edge count stays 1. -/
theorem C3_second_follow_fails_with_storage_unique_violation_witness :
    followUserHandler demoDB (userFromStored aliceRow) "bob"
      = .error .pgUniqueViolation ∧
    edgeCount demoDB (userFromStored aliceRow).id bobRow.id = 1 :=
  C3_second_follow_fails_with_storage_unique_violation demoDB
    (userFromStored aliceRow) "bob" bobRow rfl (by decide) (by decide)

/-- C4 counterexample.  The claim says verification returns boolean false
(not an error) for a correct-format non-matching password, with an error
reserved for malformed digests.  In fact `comparePasswords` has no boolean
result at all: on a digest genuinely produced by the hash algorithm and a
non-matching password it returns the `errUserNotFound` error. -/
theorem C4_wellformed_mismatch_returns_error :
    bcryptGenerateFromPassword 0 "right" = .ok (.bcrypt 0 "right") ∧
    comparePasswords (.bcrypt 0 "right") "wrong" = .error .errUserNotFound :=
  ⟨rfl, rfl⟩

/-- C4 amended.  `comparePasswords` collapses every verification failure —
well-formed digest with a non-matching password, and malformed digest
alike — into the single `errUserNotFound` error, and succeeds exactly on a
match. -/
theorem C4_verification_collapses_failures (salt : Nat) (p pass raw : String)
    (hne : p ≠ pass) :
    comparePasswords (.bcrypt salt p) pass = .error .errUserNotFound ∧
    comparePasswords (.malformed raw) pass = .error .errUserNotFound ∧
    comparePasswords (.bcrypt salt p) p = .ok () := by
  refine ⟨?_, rfl, ?_⟩ <;>
    simp [comparePasswords, bcryptCompareHashAndPassword, hne]

/-- Witness for C4 at concrete strings. -/
theorem C4_verification_collapses_failures_witness :
    comparePasswords (.bcrypt 0 "right") "wrong" = .error .errUserNotFound ∧
    comparePasswords (.malformed "zzz") "wrong" = .error .errUserNotFound ∧
    comparePasswords (.bcrypt 0 "right") "right" = .ok () :=
  C4_verification_collapses_failures 0 "right" "wrong" "zzz" (by decide)

/-- C5.  A successful profile update authenticated as user `authUser.id`
touches only that user's row: for every other id `y`, the lookup of `y` is
unchanged, and the follow table is untouched. -/
theorem C5_update_only_touches_auth_user_record
    (db : DB) (authUser : User) (salt : Nat) (body : Body)
    (db' : DB) (out : User) (y : Nat)
    (h : updateUserHandler db authUser salt body = .ok (db', out))
    (hy : y ≠ authUser.id) :
    db'.users.find? (fun u => u.id = y) = db.users.find? (fun u => u.id = y) ∧
    db'.follows = db.follows := by
  obtain ⟨inUser, ph, su, hu, hp, hup, hout⟩ := updateUserHandler_ok_inv h
  obtain ⟨hid, husers, hfollows⟩ := updateUserByID_ok_inv hup
  refine ⟨?_, hfollows⟩
  rw [husers]
  exact find_map_ne db.users authUser.id y su hid hy

/-- Witness for C5: alice's update leaves bob's row (id 2) untouched. -/
theorem C5_update_only_touches_auth_user_record_witness :
    updateUserHandler demoDB (userFromStored aliceRow) 9
        (mkBody "alice@x.com" "alice" "" "new bio" "i")
      = .ok (demoDBUpdated, demoUpdatedOut) ∧
    (2 : Nat) ≠ (userFromStored aliceRow).id ∧
    (demoDBUpdated.users.find? (fun u => u.id = 2)
        = demoDB.users.find? (fun u => u.id = 2) ∧
     demoDBUpdated.follows = demoDB.follows) :=
  ⟨rfl, by decide,
   C5_update_only_touches_auth_user_record demoDB (userFromStored aliceRow) 9
     (mkBody "alice@x.com" "alice" "" "new bio" "i") demoDBUpdated
     demoUpdatedOut 2 rfl (by decide)⟩

/-- C6.  Profile resolution is viewer-relative: with no viewer present the
returned profile's `following` flag is false whatever edges exist in the
database, and with a viewer present `following` is exactly whether the
edge (viewer, target) exists. -/
theorem C6_following_flag_viewer_relative (db : DB) (username : String) :
    (∀ p, profileHandler db none username = .ok p → p.following = false) ∧
    (∀ viewer su, SelectUserByUsername db username = .ok su →
      profileHandler db (some viewer) username =
        .ok { username := su.username, bio := su.bio, image := su.image,
              following := decide ((viewer.id, su.id) ∈ db.follows) }) := by
  constructor
  · intro p h
    simp only [profileHandler] at h
    cases hs : SelectUserByUsername db username with
    | error e => rw [hs, except_error_bind] at h; exact Except.noConfusion h
    | ok su =>
      rw [hs, except_ok_bind] at h
      injection h with h2
      rw [← h2]
      rfl
  · intro viewer su hs
    simp only [profileHandler]
    rw [hs, except_ok_bind]
    rfl

/-- Witness for C6: anonymous resolution of bob yields `following = false`
even though the edge (1, 2) exists; resolution viewed by alice yields the
edge-membership bit. -/
theorem C6_following_flag_viewer_relative_witness :
    (NewProfile { userFromStored bobRow with following := false }).following
      = false ∧
    profileHandler demoDB (some (userFromStored aliceRow)) "bob"
      = .ok { username := bobRow.username, bio := bobRow.bio,
              image := bobRow.image,
              following :=
                decide (((userFromStored aliceRow).id, bobRow.id)
                  ∈ demoDB.follows) } :=
  ⟨(C6_following_flag_viewer_relative demoDB "bob").1 _ rfl,
   (C6_following_flag_viewer_relative demoDB "bob").2
     (userFromStored aliceRow) bobRow rfl⟩

/-- C7.  Whenever the target username resolves, `unfollow` succeeds whether
or not the edge `(authUser.id, target.id)` exists (the delete is issued
unconditionally), afterwards the edge does not exist, and running the same
unfollow again returns the identical result: the operation is
idempotent. -/
theorem C7_unfollow_idempotent_success
    (db : DB) (authUser : User) (username : String) (su : StoredUser)
    (hsel : SelectUserByUsername db username = .ok su) :
    unfollowUserHandler db authUser username =
      .ok (deleteFollow db authUser.id su.id,
           NewProfile { userFromStored su with following := false }) ∧
    (authUser.id, su.id) ∉ (deleteFollow db authUser.id su.id).follows ∧
    unfollowUserHandler (deleteFollow db authUser.id su.id) authUser username =
      .ok (deleteFollow db authUser.id su.id,
           NewProfile { userFromStored su with following := false }) := by
  have hsel' : SelectUserByUsername (deleteFollow db authUser.id su.id)
      username = .ok su := hsel
  refine ⟨?_, deleteFollow_not_mem db authUser.id su.id, ?_⟩
  · simp only [unfollowUserHandler]
    rw [hsel, except_ok_bind]
  · simp only [unfollowUserHandler]
    rw [hsel', except_ok_bind]
    rw [deleteFollow_idem]

/-- Witness for C7: alice unfollows bob (the edge exists); a second
unfollow returns the same result on the already-deleted edge. -/
theorem C7_unfollow_idempotent_success_witness :
    unfollowUserHandler demoDB (userFromStored aliceRow) "bob"
      = .ok (deleteFollow demoDB (userFromStored aliceRow).id bobRow.id,
             NewProfile { userFromStored bobRow with following := false }) ∧
    ((userFromStored aliceRow).id, bobRow.id)
      ∉ (deleteFollow demoDB (userFromStored aliceRow).id bobRow.id).follows ∧
    unfollowUserHandler (deleteFollow demoDB (userFromStored aliceRow).id
        bobRow.id) (userFromStored aliceRow) "bob"
      = .ok (deleteFollow demoDB (userFromStored aliceRow).id bobRow.id,
             NewProfile { userFromStored bobRow with following := false }) :=
  C7_unfollow_idempotent_success demoDB (userFromStored aliceRow) "bob"
    bobRow rfl

/-- C8.  Every token minted by a successful registration or login embeds
the authenticated user's id and expires exactly 24 hours (86400 seconds)
after issue; neither handler lets the caller choose the TTL
(`setUserToken` takes no TTL argument — the constant is fixed in its
body). -/
theorem C8_token_embeds_id_with_24h_ttl
    (db : DB) (salt now : Nat) (body : Body) (db' : DB) (out : User)
    (h : createUserHandler db salt now body = .ok (db', out) ∨
         loginUserHandler db now body = .ok (db', out)) :
    out.token = some { userID := out.id, expiresAt := now + 24 * 3600 } := by
  rcases h with h | h
  · obtain ⟨inUser, ph, su, _, _, _, hout⟩ := createUserHandler_ok_inv h
    subst hout
    rfl
  · obtain ⟨inUser, su, _, _, _, _, hout⟩ := loginUserHandler_ok_inv h
    subst hout
    rfl

/-- Witness for C8: registering carol at time 100 yields a token for id 3
expiring at 86500. -/
theorem C8_token_embeds_id_with_24h_ttl_witness :
    createUserHandler demoDB 5 100 (mkBody "carol@x.com" "carol" "pw" "" "")
      = .ok (c8DBAfter, c8Out) ∧
    c8Out.token = some { userID := c8Out.id, expiresAt := 100 + 24 * 3600 } :=
  ⟨rfl,
   C8_token_embeds_id_with_24h_ttl demoDB 5 100
     (mkBody "carol@x.com" "carol" "pw" "" "") c8DBAfter c8Out (Or.inl rfl)⟩

/-- C9.  The user record returned by a successful registration, login or
profile update carries an empty plaintext-password field.  Registration
clears it explicitly; login returns a record loaded from the store, which
has no plaintext column; the update handler returns the context user,
which the auth middleware loaded from the store (hence its plaintext field
is empty, the stated hypothesis). -/
theorem C9_password_never_echoed
    (db : DB) (authUser : User) (salt now : Nat) (body : Body)
    (db' : DB) (out : User)
    (h : createUserHandler db salt now body = .ok (db', out) ∨
         loginUserHandler db now body = .ok (db', out) ∨
         (authUser.password = "" ∧
          updateUserHandler db authUser salt body = .ok (db', out))) :
    out.password = "" := by
  rcases h with h | h | ⟨hpw, h⟩
  · obtain ⟨_, _, _, _, _, _, hout⟩ := createUserHandler_ok_inv h
    subst hout; rfl
  · obtain ⟨_, su, _, _, _, _, hout⟩ := loginUserHandler_ok_inv h
    subst hout; rfl
  · obtain ⟨_, _, su, _, _, _, hout⟩ := updateUserHandler_ok_inv h
    subst hout; exact hpw

/-- Witness for C9 on the update path: alice (a context user loaded from
the store, empty plaintext field) updates her profile; the returned record
has an empty password. -/
theorem C9_password_never_echoed_witness :
    demoUpdatedOut.password = "" :=
  C9_password_never_echoed demoDB (userFromStored aliceRow) 9 0
    (mkBody "alice@x.com" "alice" "" "new bio" "i") demoDBUpdated
    demoUpdatedOut (Or.inr (Or.inr ⟨rfl, rfl⟩))

/-- C10.  The size limit `10<<kb` passed by all three JSON-reading handlers
equals 10240 bytes (10 KiB), and a body over that limit makes each handler
fail with the body-size error before any password hashing or storage
write: no successor state is ever produced. -/
theorem C10_body_limited_to_10240_bytes (db : DB) (authUser : User)
    (salt now : Nat) (body : Body) (h : body.size > 10240) :
    10 <<< kb = 10240 ∧
    createUserHandler db salt now body = .error .bodyTooLarge ∧
    loginUserHandler db now body = .error .bodyTooLarge ∧
    updateUserHandler db authUser salt body = .error .bodyTooLarge := by
  have h' : body.size > 10 <<< kb := h
  refine ⟨rfl, ?_, ?_, ?_⟩ <;>
    simp [createUserHandler, loginUserHandler, updateUserHandler,
      unmarshalJSON, h', except_error_bind]

/-- Witness for C10 at a 10241-byte body. -/
theorem C10_body_limited_to_10240_bytes_witness :
    (10241 : Nat) > 10240 ∧
    (10 <<< kb = 10240 ∧
     createUserHandler demoDB 0 0 { size := 10241, user := none }
       = .error .bodyTooLarge ∧
     loginUserHandler demoDB 0 { size := 10241, user := none }
       = .error .bodyTooLarge ∧
     updateUserHandler demoDB (userFromStored aliceRow) 0
       { size := 10241, user := none } = .error .bodyTooLarge) :=
  ⟨by decide,
   C10_body_limited_to_10240_bytes demoDB (userFromStored aliceRow) 0 0
     { size := 10241, user := none } (by decide)⟩

end Org
